import Mathlib

/-!
Shallow embedding of `server.py`: a SIWE (Sign-In With Ethereum) challenge
server with a bounded in-memory nonce store, a periodically refreshed
reputation cache, and an ordered verification pipeline on the POST
`/api/gold` handler.

Conventions of the embedding:
* timestamps are integers (seconds); `(current_time - t).total_seconds() > 300`
  becomes `now - t > NONCE_TTL`;
* the Python dicts `nonces` and `reputation_cache` are association lists in
  insertion order (Python 3.7 dicts preserve insertion order); dict
  assignment updates the entry in place for an existing key and appends for
  a new key;
* external collaborators (the `siwe` parser/verifier, the Agent0 SDK) are
  black boxes: their outcomes are inputs to the embedded functions;
* a Python exception is modelled with `Except Unit` at the place where the
  source can raise.
-/

namespace SiweServer

abbrev Time := Int

/-- the `nonces` dict: token -> issue timestamp, in insertion order. -/
abbrev NonceStore := List (String × Time)

/-- nonce lifetime in seconds (the literal `300` in `server.py`). -/
def NONCE_TTL : Int := 300

/-- `MAX_NONCES = 10000` (server.py line 26). -/
def MAX_NONCES : Nat := 10000

/-- membership test `siwe_message.nonce in nonces` / `len`-free presence check. -/
def hasNonce (s : NonceStore) (tok : String) : Bool :=
  s.any (fun e => e.1 == tok)

/-- the list comprehension
`expired = [n for n, t in nonces.items() if (current_time - t).total_seconds() > 300]`. -/
def expiredKeys (now : Time) (s : NonceStore) : List String :=
  (s.filter (fun e => decide (now - e.2 > NONCE_TTL))).map Prod.fst

/-- `for n in ks: del nonces[n]` — delete the listed keys from the dict,
keeping the remaining entries in order. -/
def deleteKeys (ks : List String) (s : NonceStore) : NonceStore :=
  s.filter (fun e => !(ks.contains e.1))

/-- one expired-nonce sweep: collect the expired keys, then delete them.
This is the shared body of the janitor `cleanup_nonces` (lines 45-51) and of
the two opportunistic sweeps inside `get_nonce` (lines 166-169 and 183-186). -/
def sweepNonces (now : Time) (s : NonceStore) : NonceStore :=
  deleteKeys (expiredKeys now s) s

/-- dict assignment `nonces[nonce] = current_time`: update in place when the
key exists, append otherwise. -/
def storeNonce (tok : String) (now : Time) (s : NonceStore) : NonceStore :=
  if s.any (fun e => e.1 == tok) then
    s.map (fun e => if e.1 == tok then (tok, now) else e)
  else s ++ [(tok, now)]

/-- capacity eviction (lines 172-178): stable-sort the entries by timestamp,
take the oldest `int(MAX_NONCES * 0.1)` = 1000 of them, and delete their keys. -/
def evictOldest (s : NonceStore) : NonceStore :=
  deleteKeys
    (((s.mergeSort (fun a b => decide (a.2 ≤ b.2))).take (MAX_NONCES / 10)).map Prod.fst)
    s

/-- body of the `get_nonce` handler (lines 157-188), with the freshly generated
token `tok` and the current time `now` as inputs: when at capacity, sweep
expired entries and, if still at capacity, evict the oldest 10 percent; then
store the new nonce and do one more opportunistic sweep. -/
def get_nonce (tok : String) (now : Time) (s : NonceStore) : NonceStore :=
  sweepNonces now (storeNonce tok now
    (if MAX_NONCES ≤ s.length then
      (if MAX_NONCES ≤ (sweepNonces now s).length then evictOldest (sweepNonces now s)
       else sweepNonces now s)
     else s))

/-- cached reputation record, as built by `fetch_reputation_agents`
(lines 104-109). -/
structure RepRecord where
  agentId : String
  name : String
  score : Int
  fetched_at : String
deriving Repr, DecidableEq

/-- the second component returned by `check_reputation`: either a cached
record from the reputation cache, or one of the two bypass placeholder dicts
tagged with `test_mode: True` (lines 139 and 144). -/
inductive AgentInfo where
  | cached (r : RepRecord)
  | bypass (note : String)
deriving Repr, DecidableEq

/-- the `reputation_cache` dict: lowercased wallet address -> record. -/
abbrev RepCache := List (String × RepRecord)

/-- `reputation_cache.get(address_lower)`. -/
def cacheLookup (c : RepCache) (k : String) : Option RepRecord :=
  (c.find? (fun e => e.1 == k)).map Prod.snd

/-- dict assignment `reputation_cache[wallet_address] = {...}`. -/
def cacheInsert (k : String) (v : RepRecord) (c : RepCache) : RepCache :=
  if c.any (fun e => e.1 == k) then c.map (fun e => if e.1 == k then (k, v) else e)
  else c ++ [(k, v)]

/-- ASCII lowercasing of one character, as Python `str.lower` does on the
hex wallet addresses and configuration strings this server handles. -/
def lowerChar (c : Char) : Char :=
  if 65 ≤ c.toNat ∧ c.toNat ≤ 90 then Char.ofNat (c.toNat + 32) else c

/-- Python `s.lower()` (ASCII range, executable). -/
def pyLower (s : String) : String := String.mk (s.data.map lowerChar)

/-- the environment/startup state read by `check_reputation`:
`int(os.getenv("MIN_REPUTATION_SCORE", "50"))`, whether `agent0_sdk` was
initialized, and the raw `TEST_MODE` environment string. -/
structure RepConfig where
  minScore : Int
  sdkAvailable : Bool
  testModeEnv : String
deriving Repr, DecidableEq

/-- `check_reputation(address)` (lines 135-154): sentinel threshold bypass
first, then the missing-SDK branch (with the TEST_MODE override), then a pure
lookup of the lowercased address in the cache. -/
def check_reputation (cfg : RepConfig) (cache : RepCache) (address : String) :
    Bool × Option AgentInfo :=
  if cfg.minScore > 999998 then
    (true, some (AgentInfo.bypass "Reputation check disabled"))
  else if cfg.sdkAvailable = false then
    (if pyLower cfg.testModeEnv = "true" then (true, some (AgentInfo.bypass "Test mode enabled"))
     else (false, none))
  else
    match cacheLookup cache (pyLower address) with
    | some info => (true, some (AgentInfo.cached info))
    | none => (false, none)

/-- a raw agent object returned by the SDK (lines 97-102): `walletAddress`
is absent or falsy (`none`), a string (`Sum.inl`), or a truthy non-string
value on which `.lower()` raises (`Sum.inr`); `agentId`/`name` default to
"N/A" when absent; `averageScore` is `none` when `extras` is not a dict or
lacks the key, in which case the score defaults to 0. -/
structure RawAgent where
  walletAddress : Option (String ⊕ Unit)
  agentId : Option String
  name : Option String
  averageScore : Option Int
deriving Repr

/-- per-record processing in the refresh loop (lines 98-109): skip falsy
wallet addresses, lowercase string ones, raise on non-string ones. -/
def processAgent (now : String) (a : RawAgent) : Except Unit (Option (String × RepRecord)) :=
  match a.walletAddress with
  | none => Except.ok none
  | some (Sum.inl w) =>
      if w = "" then Except.ok none
      else Except.ok (some (pyLower w,
        ⟨a.agentId.getD "N/A", a.name.getD "N/A", a.averageScore.getD 0, now⟩))
  | some (Sum.inr _) => Except.error ()

/-- the populate loop run after `reputation_cache.clear()`: processes the
agents in order into the accumulator; a raising record aborts the loop,
leaving the partial accumulator visible (second component records whether an
exception escaped). -/
def buildCache (now : String) : List RawAgent → RepCache → RepCache × Bool
  | [], acc => (acc, false)
  | a :: rest, acc =>
    match processAgent now a with
    | Except.error _ => (acc, true)
    | Except.ok none => buildCache now rest acc
    | Except.ok (some kv) => buildCache now rest (cacheInsert kv.1 kv.2 acc)

/-- one cycle of the `fetch_reputation_agents` background loop (lines 87-118):
`fetch` is the outcome of `fetch_all_agents_by_reputation` (an external
paginated query that may raise). The result is the cache visible after the
cycle together with a flag recording whether the `except` clause caught an
exception. When the fetch succeeds the cache is cleared and repopulated in
place; an exception inside the per-record loop leaves the partial mapping. -/
def fetch_reputation_agents (sdkAvailable : Bool) (fetch : Except Unit (List RawAgent))
    (now : String) (cache : RepCache) : RepCache × Bool :=
  if sdkAvailable then
    match fetch with
    | Except.error _ => (cache, true)
    | Except.ok agents => buildCache now agents []
  else (cache, false)

/-- the parsed fields of a SIWE message, as exposed by
`SiweMessage.from_message` (black-box external parser). -/
structure SiweMessage where
  nonce : String
  domain : String
  chain_id : Int
  statement : String
  uri : String
  address : String
deriving Repr, DecidableEq

/-- server configuration read at the top of `golden_emoji` (lines 217-223):
`EXPECTED_DOMAIN` may be unset (`none`); `EXPECTED_URI` defaults to
`"http://" ++ domain` when unset. -/
structure ServerConfig where
  expectedDomain : Option String
  chainId : Int
  expectedStatement : String
  expectedUriEnv : Option String
  rep : RepConfig
deriving Repr

/-- a POST request to `/api/gold`, with the outcomes of the external
collaborators as black-box inputs: `hasJson` is the truthiness of
`request.get_json()`, `message`/`signature` are the body fields (`none` =
absent), `parsed` is the outcome of `SiweMessage.from_message` (`none` = it
raised), `sigOk` is the outcome of `siwe_message.verify` (`false` = it
raised). -/
structure GoldRequest where
  hasJson : Bool
  message : Option String
  signature : Option String
  parsed : Option SiweMessage
  sigOk : Bool
deriving Repr

/-- the discriminated outcome of the POST `/api/gold` handler. -/
inductive GoldResponse where
  | misconfig
  | invalidJson
  | missingFields
  | invalidNonce
  | domainMismatch (expected actual : String)
  | chainIdMismatch (expected actual : Int)
  | statementMismatch (expected actual : String)
  | uriMismatch (expected actual : String)
  | verificationFailed
  | reputationDenied (minScore : Int) (address : String)
  | success (address : String) (agent : Option AgentInfo)
deriving Repr, DecidableEq

/-- HTTP status code attached to each handler outcome in `server.py`. -/
def statusOf : GoldResponse → Nat
  | GoldResponse.misconfig => 500
  | GoldResponse.invalidJson => 400
  | GoldResponse.missingFields => 400
  | GoldResponse.invalidNonce => 401
  | GoldResponse.domainMismatch _ _ => 401
  | GoldResponse.chainIdMismatch _ _ => 401
  | GoldResponse.statementMismatch _ _ => 401
  | GoldResponse.uriMismatch _ _ => 401
  | GoldResponse.verificationFailed => 401
  | GoldResponse.reputationDenied _ _ => 403
  | GoldResponse.success _ _ => 200

/-- single-quote character, used in the f-string error messages. -/
def sq : String := String.singleton (Char.ofNat 39)

/-- the `error` field of each failure response, exactly as formatted by the
f-strings in `server.py`. -/
def errorMessage : GoldResponse → Option String
  | GoldResponse.misconfig => some "Server misconfiguration: EXPECTED_DOMAIN not set"
  | GoldResponse.invalidJson => some "Invalid or missing JSON payload"
  | GoldResponse.missingFields => some "Missing message or signature"
  | GoldResponse.invalidNonce => some "Invalid or expired nonce"
  | GoldResponse.domainMismatch e a =>
      some ("Domain mismatch: expected " ++ sq ++ e ++ sq ++ ", got " ++ sq ++ a ++ sq)
  | GoldResponse.chainIdMismatch e a =>
      some ("Chain ID mismatch: expected " ++ toString e ++ ", got " ++ toString a)
  | GoldResponse.statementMismatch e a =>
      some ("Statement mismatch: expected " ++ sq ++ e ++ sq ++ ", got " ++ sq ++ a ++ sq)
  | GoldResponse.uriMismatch e a =>
      some ("URI mismatch: expected " ++ sq ++ e ++ sq ++ ", got " ++ sq ++ a ++ sq)
  | GoldResponse.verificationFailed => some "Verification failed"
  | GoldResponse.reputationDenied m _ =>
      some ("Access denied: Reputation score must be >" ++ toString m)
  | GoldResponse.success _ _ => none

/-- the validation chain after the nonce has been consumed (lines 253-299):
domain, chain id, statement, uri equality, then signature verification, then
the reputation check. -/
def fieldChecks (cfg : ServerConfig) (d uriExp : String) (msg : SiweMessage)
    (sigOk : Bool) (cache : RepCache) : GoldResponse :=
  if msg.domain ≠ d then GoldResponse.domainMismatch d msg.domain
  else if msg.chain_id ≠ cfg.chainId then GoldResponse.chainIdMismatch cfg.chainId msg.chain_id
  else if msg.statement ≠ cfg.expectedStatement then
    GoldResponse.statementMismatch cfg.expectedStatement msg.statement
  else if msg.uri ≠ uriExp then GoldResponse.uriMismatch uriExp msg.uri
  else if sigOk = false then GoldResponse.verificationFailed
  else if (check_reputation cfg.rep cache msg.address).1 = false then
    GoldResponse.reputationDenied cfg.rep.minScore msg.address
  else GoldResponse.success msg.address (check_reputation cfg.rep cache msg.address).2

/-- the POST branch of the `golden_emoji` handler (lines 215-303), returning
the response together with the nonce store left behind by the request.
`expected_domain` falsy (unset or empty) short-circuits to the 500
misconfiguration error before anything else; missing JSON or missing
message/signature are 400s; a raising parse is caught by the outer `except`
as the generic verification failure; the nonce is checked and deleted under
the lock before any field check runs. -/
def golden_emoji (cfg : ServerConfig) (req : GoldRequest) (store : NonceStore)
    (cache : RepCache) : GoldResponse × NonceStore :=
  match cfg.expectedDomain with
  | none => (GoldResponse.misconfig, store)
  | some d =>
    if d = "" then (GoldResponse.misconfig, store)
    else
      if req.hasJson = false then (GoldResponse.invalidJson, store)
      else
        match req.message, req.signature with
        | some m, some sg =>
          if m = "" ∨ sg = "" then (GoldResponse.missingFields, store)
          else
            match req.parsed with
            | none => (GoldResponse.verificationFailed, store)
            | some msg =>
              if hasNonce store msg.nonce = false then (GoldResponse.invalidNonce, store)
              else
                (fieldChecks cfg d (cfg.expectedUriEnv.getD ("http://" ++ d)) msg req.sigOk cache,
                  deleteKeys [msg.nonce] store)
        | _, _ => (GoldResponse.missingFields, store)

/-- the nonce states the server can actually be in: the dict starts empty and
is only mutated by `get_nonce`, the janitor sweep, and the POST handler. -/
inductive ReachableStore : NonceStore → Prop
  | empty : ReachableStore []
  | issue (tok : String) (now : Time) {s : NonceStore} :
      ReachableStore s → ReachableStore (get_nonce tok now s)
  | janitor (now : Time) {s : NonceStore} :
      ReachableStore s → ReachableStore (sweepNonces now s)
  | request (cfg : ServerConfig) (req : GoldRequest) (cache : RepCache) {s : NonceStore} :
      ReachableStore s → ReachableStore ((golden_emoji cfg req s cache).2)

/-- specification side of claim C2 (written from the claim wording, to be
compared with the handler): the identifiers of the verifier's checks. -/
inductive CheckId where
  | nonceCheck
  | domainCheck
  | chainIdCheck
  | statementCheck
  | uriCheck
  | signatureCheck
  | reputationCheck
deriving Repr, DecidableEq

/-- specification side of claim C2: the fixed order in which the verifier is
claimed to apply its checks. -/
def specCheckOrder : List CheckId :=
  [CheckId.nonceCheck, CheckId.domainCheck, CheckId.chainIdCheck, CheckId.statementCheck,
   CheckId.uriCheck, CheckId.signatureCheck, CheckId.reputationCheck]

/-- specification side of claim C2: whether each individual check fails on
the given request, independently of the other checks. -/
def specCheckFails (cfg : ServerConfig) (d uriExp : String) (msg : SiweMessage) (sigOk : Bool)
    (cache : RepCache) (store : NonceStore) : CheckId → Bool
  | CheckId.nonceCheck => !(hasNonce store msg.nonce)
  | CheckId.domainCheck => msg.domain != d
  | CheckId.chainIdCheck => msg.chain_id != cfg.chainId
  | CheckId.statementCheck => msg.statement != cfg.expectedStatement
  | CheckId.uriCheck => msg.uri != uriExp
  | CheckId.signatureCheck => !sigOk
  | CheckId.reputationCheck => !(check_reputation cfg.rep cache msg.address).1

/-- specification side of claim C2: the error reported for each failing
check; each field-mismatch error names the field together with both the
expected and the actual value. -/
def specCheckFailureResponse (cfg : ServerConfig) (d uriExp : String) (msg : SiweMessage) :
    CheckId → GoldResponse
  | CheckId.nonceCheck => GoldResponse.invalidNonce
  | CheckId.domainCheck => GoldResponse.domainMismatch d msg.domain
  | CheckId.chainIdCheck => GoldResponse.chainIdMismatch cfg.chainId msg.chain_id
  | CheckId.statementCheck => GoldResponse.statementMismatch cfg.expectedStatement msg.statement
  | CheckId.uriCheck => GoldResponse.uriMismatch uriExp msg.uri
  | CheckId.signatureCheck => GoldResponse.verificationFailed
  | CheckId.reputationCheck => GoldResponse.reputationDenied cfg.rep.minScore msg.address

/-! ## Nonce-store lemmas -/

theorem length_filter_not_add {α : Type} (p : α → Bool) (l : List α) :
    (l.filter (fun a => !(p a))).length + (l.filter p).length = l.length := by
  induction l with
  | nil => rfl
  | cons hd tl ih =>
    cases h : p hd <;> simp [List.filter_cons, h] <;> omega

/-- deleting the keys of the first `k` entries of any permutation of `l`
removes at least `k` entries. -/
theorem length_deleteKeys_take_add (l srt : List (String × Time)) (k : Nat)
    (hperm : List.Perm srt l) (hk : k ≤ l.length) :
    (deleteKeys ((srt.take k).map Prod.fst) l).length + k ≤ l.length := by
  unfold deleteKeys
  have hallp : ∀ e ∈ srt.take k,
      (fun e2 => ((srt.take k).map Prod.fst).contains e2.1) e = true := by
    intro e he
    exact List.contains_iff_exists_mem_beq.mpr ⟨e.1, List.mem_map_of_mem Prod.fst he, by simp⟩
  have heq : (srt.take k).filter (fun e2 => ((srt.take k).map Prod.fst).contains e2.1) =
      srt.take k := List.filter_eq_self.mpr hallp
  have hsubl : List.Sublist
      ((srt.take k).filter (fun e2 => ((srt.take k).map Prod.fst).contains e2.1))
      (srt.filter (fun e2 => ((srt.take k).map Prod.fst).contains e2.1)) :=
    (List.take_sublist k srt).filter _
  have hlen1 : (srt.take k).length ≤
      (srt.filter (fun e2 => ((srt.take k).map Prod.fst).contains e2.1)).length := by
    conv_lhs => rw [← heq]
    exact hsubl.length_le
  have hlen2 : (srt.filter (fun e2 => ((srt.take k).map Prod.fst).contains e2.1)).length =
      (l.filter (fun e2 => ((srt.take k).map Prod.fst).contains e2.1)).length :=
    (hperm.filter _).length_eq
  have hlen3 : (srt.take k).length = k := by
    rw [List.length_take, hperm.length_eq]
    omega
  have hsplit := length_filter_not_add (fun e2 => ((srt.take k).map Prod.fst).contains e2.1) l
  omega

theorem length_evictOldest_add (s : NonceStore) (h2 : MAX_NONCES / 10 ≤ s.length) :
    (evictOldest s).length + MAX_NONCES / 10 ≤ s.length := by
  unfold evictOldest
  exact length_deleteKeys_take_add s _ (MAX_NONCES / 10) (List.mergeSort_perm s _) h2

theorem length_sweepNonces_le (now : Time) (s : NonceStore) :
    (sweepNonces now s).length ≤ s.length := by
  unfold sweepNonces deleteKeys
  exact List.length_filter_le _ _

theorem length_storeNonce_le (tok : String) (now : Time) (s : NonceStore) :
    (storeNonce tok now s).length ≤ s.length + 1 := by
  unfold storeNonce
  by_cases h : s.any (fun e => e.1 == tok) = true
  · rw [if_pos h, List.length_map]
    omega
  · rw [if_neg h, List.length_append]
    simp

theorem storeNonce_self_mem (tok : String) (now : Time) (s : NonceStore) :
    (tok, now) ∈ storeNonce tok now s := by
  unfold storeNonce
  by_cases h : s.any (fun e => e.1 == tok) = true
  · rw [if_pos h]
    obtain ⟨e, he, hbeq⟩ := List.any_eq_true.mp h
    exact List.mem_map.mpr ⟨e, he, by rw [if_pos hbeq]⟩
  · rw [if_neg h]
    exact List.mem_append.mpr (Or.inr (by simp))

/-- after a dict assignment, every entry carrying the new key is the new
entry. -/
theorem storeNonce_key_val (tok : String) (now : Time) (s : NonceStore) :
    ∀ e ∈ storeNonce tok now s, e.1 = tok → e = (tok, now) := by
  unfold storeNonce
  by_cases h : s.any (fun e => e.1 == tok) = true
  · rw [if_pos h]
    intro e he hkey
    obtain ⟨e0, he0, heq⟩ := List.mem_map.mp he
    by_cases hb : (e0.1 == tok) = true
    · rw [if_pos hb] at heq
      exact heq.symm
    · rw [if_neg hb] at heq
      exfalso
      apply hb
      rw [beq_iff_eq, heq, hkey]
  · rw [if_neg h]
    intro e he hkey
    rcases List.mem_append.mp he with h1 | h2
    · exfalso
      exact h (List.any_eq_true.mpr ⟨e, h1, by rw [beq_iff_eq, hkey]⟩)
    · simpa using h2

/-- a just-inserted entry with timestamp `now` survives a sweep at `now`,
provided every entry carrying its key is that entry. -/
theorem mem_sweep_self (now : Time) (s2 : NonceStore) (tok : String)
    (hmem : (tok, now) ∈ s2) (hkv : ∀ e ∈ s2, e.1 = tok → e = (tok, now)) :
    (tok, now) ∈ sweepNonces now s2 := by
  unfold sweepNonces deleteKeys
  apply List.mem_filter.mpr
  refine ⟨hmem, ?_⟩
  cases hx : (expiredKeys now s2).contains (tok, now).1 with
  | false => rfl
  | true =>
    exfalso
    obtain ⟨b, hb, hbeq⟩ := List.contains_iff_exists_mem_beq.mp hx
    unfold expiredKeys at hb
    obtain ⟨e2, he2, hbe⟩ := List.mem_map.mp hb
    have hf := List.mem_filter.mp he2
    have hkeq : e2.1 = tok := by
      rw [hbe]
      exact (beq_iff_eq.mp hbeq).symm
    have he := hkv e2 hf.1 hkeq
    have hexp := hf.2
    rw [he] at hexp
    simp [NONCE_TTL, sub_self] at hexp

theorem get_nonce_inserts (tok : String) (now : Time) (s : NonceStore) :
    (tok, now) ∈ get_nonce tok now s := by
  unfold get_nonce
  exact mem_sweep_self now _ tok (storeNonce_self_mem tok now _) (storeNonce_key_val tok now _)

theorem get_nonce_length_le (tok : String) (now : Time) (s : NonceStore)
    (h : s.length ≤ MAX_NONCES) :
    (get_nonce tok now s).length ≤ MAX_NONCES := by
  unfold get_nonce
  have hk : MAX_NONCES / 10 = 1000 := rfl
  have hM : MAX_NONCES = 10000 := rfl
  by_cases h1 : MAX_NONCES ≤ s.length
  · rw [if_pos h1]
    by_cases h2 : MAX_NONCES ≤ (sweepNonces now s).length
    · rw [if_pos h2]
      have ha := length_evictOldest_add (sweepNonces now s) (by omega)
      have hb := length_sweepNonces_le now s
      have hc := length_storeNonce_le tok now (evictOldest (sweepNonces now s))
      have hd2 := length_sweepNonces_le now (storeNonce tok now (evictOldest (sweepNonces now s)))
      omega
    · rw [if_neg h2]
      have hc := length_storeNonce_le tok now (sweepNonces now s)
      have hd2 := length_sweepNonces_le now (storeNonce tok now (sweepNonces now s))
      omega
  · rw [if_neg h1]
    have hc := length_storeNonce_le tok now s
    have hd2 := length_sweepNonces_le now (storeNonce tok now s)
    omega

/-- entries of a store with pairwise distinct keys (the dict invariant) are
determined by their key. -/
theorem keys_nodup_entry_inj {s : NonceStore} (h : (s.map Prod.fst).Nodup) :
    ∀ e1 ∈ s, ∀ e2 ∈ s, e1.1 = e2.1 → e1 = e2 := by
  induction s with
  | nil =>
    intro e1 he1
    cases he1
  | cons hd tl ih =>
    rw [List.map_cons, List.nodup_cons] at h
    intro e1 he1 e2 he2 hk
    rcases List.mem_cons.mp he1 with rfl | h1
    · rcases List.mem_cons.mp he2 with rfl | h2
      · rfl
      · exfalso
        apply h.1
        rw [hk]
        exact List.mem_map_of_mem Prod.fst h2
    · rcases List.mem_cons.mp he2 with rfl | h2
      · exfalso
        apply h.1
        rw [← hk]
        exact List.mem_map_of_mem Prod.fst h1
      · exact ih h.2 e1 h1 e2 h2 hk

theorem golden_emoji_store_le (cfg : ServerConfig) (req : GoldRequest) (store : NonceStore)
    (cache : RepCache) : ((golden_emoji cfg req store cache).2).length ≤ store.length := by
  unfold golden_emoji
  cases hD : cfg.expectedDomain with
  | none => exact Nat.le_refl _
  | some d =>
    dsimp only
    by_cases h1 : d = ""
    · rw [if_pos h1]
    · rw [if_neg h1]
      by_cases h2 : req.hasJson = false
      · rw [if_pos h2]
      · rw [if_neg h2]
        cases hm : req.message with
        | none => exact Nat.le_refl _
        | some m =>
          cases hg : req.signature with
          | none => exact Nat.le_refl _
          | some g =>
            dsimp only
            by_cases h3 : m = "" ∨ g = ""
            · rw [if_pos h3]
            · rw [if_neg h3]
              cases hp : req.parsed with
              | none => exact Nat.le_refl _
              | some msg =>
                dsimp only
                by_cases h4 : hasNonce store msg.nonce = false
                · rw [if_pos h4]
                · rw [if_neg h4]
                  exact List.length_filter_le _ _

theorem reachable_length_le {s : NonceStore} (h : ReachableStore s) :
    s.length ≤ MAX_NONCES := by
  induction h with
  | empty => exact Nat.zero_le _
  | issue tok now _ ih => exact get_nonce_length_le _ _ _ ih
  | janitor now _ ih => exact Nat.le_trans (length_sweepNonces_le _ _) ih
  | request cfg req cache _ ih => exact Nat.le_trans (golden_emoji_store_le _ _ _ _) ih

/-! ## Claim theorems -/

/-- C4: for every state the nonce store can be in, issuing never fails — the
freshly generated token is always present (with its issue time) after
`get_nonce` — and after the eviction step the store size never exceeds the
10,000-entry capacity. -/
theorem issue_never_fails_and_bounded (tok : String) (now : Time) {s : NonceStore}
    (h : ReachableStore s) :
    (tok, now) ∈ get_nonce tok now s ∧ (get_nonce tok now s).length ≤ MAX_NONCES :=
  ⟨get_nonce_inserts tok now s, get_nonce_length_le tok now s (reachable_length_le h)⟩

theorem issue_never_fails_and_bounded_witness :
    ReachableStore ([("b", (0 : Int))] : NonceStore) ∧
      (("a", (100 : Int)) ∈ get_nonce "a" 100 [("b", (0 : Int))] ∧
        (get_nonce "a" 100 [("b", (0 : Int))]).length ≤ MAX_NONCES) := by
  have hr : ReachableStore ([("b", (0 : Int))] : NonceStore) := by
    have h0 := ReachableStore.issue "b" 0 ReachableStore.empty
    have he : get_nonce "b" 0 [] = [("b", (0 : Int))] := rfl
    rw [he] at h0
    exact h0
  exact ⟨hr, issue_never_fails_and_bounded "a" 100 hr⟩

/-- C7: a sweep (the janitor `cleanup_nonces` body or the opportunistic
sweeps inside `get_nonce`, all embedded by `sweepNonces`) deletes exactly the
entries whose age exceeds the 300-second TTL and leaves every younger entry
unchanged: under the dict invariant (distinct keys), an entry survives the
sweep iff it was present and its age is at most the TTL. Hence a token not
consumed within the TTL is absent from the store after the next sweep. -/
theorem sweep_deletes_exactly_expired (now : Time) (s : NonceStore) (e : String × Time)
    (hnd : (s.map Prod.fst).Nodup) :
    e ∈ sweepNonces now s ↔ e ∈ s ∧ now - e.2 ≤ NONCE_TTL := by
  unfold sweepNonces deleteKeys
  rw [List.mem_filter]
  constructor
  · rintro ⟨hs, hb⟩
    refine ⟨hs, ?_⟩
    by_contra hgt
    push_neg at hgt
    have hkmem : e.1 ∈ expiredKeys now s := by
      unfold expiredKeys
      refine List.mem_map_of_mem Prod.fst (List.mem_filter.mpr ⟨hs, ?_⟩)
      exact decide_eq_true hgt
    have hcon : (expiredKeys now s).contains e.1 = true :=
      List.contains_iff_exists_mem_beq.mpr ⟨e.1, hkmem, by simp⟩
    rw [hcon] at hb
    cases hb
  · rintro ⟨hs, hle⟩
    refine ⟨hs, ?_⟩
    cases hx : (expiredKeys now s).contains e.1 with
    | false => rfl
    | true =>
      exfalso
      obtain ⟨b, hb, hbeq⟩ := List.contains_iff_exists_mem_beq.mp hx
      unfold expiredKeys at hb
      obtain ⟨e2, he2, hbe⟩ := List.mem_map.mp hb
      have hf := List.mem_filter.mp he2
      have hkeq : e2.1 = e.1 := by
        rw [hbe]
        exact (beq_iff_eq.mp hbeq).symm
      have he : e2 = e := keys_nodup_entry_inj hnd e2 hf.1 e hs hkeq
      have hexp := hf.2
      rw [he] at hexp
      simp only [decide_eq_true_eq] at hexp
      exact absurd hle (not_le.mpr hexp)

theorem hasNonce_deleteKeys_self (tok : String) (s : NonceStore) :
    hasNonce (deleteKeys [tok] s) tok = false := by
  unfold hasNonce deleteKeys
  cases hx : (s.filter (fun e => !([tok].contains e.1))).any (fun e => e.1 == tok) with
  | false => rfl
  | true =>
    exfalso
    obtain ⟨e, he, hbeq⟩ := List.any_eq_true.mp hx
    have hfil := (List.mem_filter.mp he).2
    rw [beq_iff_eq] at hbeq
    have hc : ([tok].contains e.1) = true :=
      List.contains_iff_exists_mem_beq.mpr ⟨tok, by simp, by simp [hbeq]⟩
    rw [hc] at hfil
    cases hfil

/-- the POST handler under a well-formed request (domain configured and
nonempty, JSON body present, nonempty message and signature, parse
succeeded): it reduces to the nonce check followed by the field-check
chain, deleting the nonce exactly when it was present. -/
theorem golden_emoji_eq_of_wf (cfg : ServerConfig) (req : GoldRequest) (store : NonceStore)
    (cache : RepCache) (d m g : String) (msg : SiweMessage)
    (hd : cfg.expectedDomain = some d) (hdne : d ≠ "")
    (hjson : req.hasJson = true) (hm : req.message = some m) (hmne : m ≠ "")
    (hg : req.signature = some g) (hgne : g ≠ "") (hp : req.parsed = some msg) :
    golden_emoji cfg req store cache =
      if hasNonce store msg.nonce = false then (GoldResponse.invalidNonce, store)
      else (fieldChecks cfg d (cfg.expectedUriEnv.getD ("http://" ++ d)) msg req.sigOk cache,
        deleteKeys [msg.nonce] store) := by
  unfold golden_emoji
  rw [hd]
  dsimp only
  rw [if_neg hdne, hjson, hm, hg, hp]
  rw [if_neg (by decide : ¬(true = false))]
  dsimp only
  rw [if_neg (not_or.mpr ⟨hmne, hgne⟩)]

theorem sweep_deletes_exactly_expired_witness :
    (([("a", (0 : Int)), ("b", (200 : Int))] : NonceStore).map Prod.fst).Nodup ∧
      ((("a", (0 : Int)) ∈ sweepNonces 400 [("a", (0 : Int)), ("b", (200 : Int))]) ↔
        (("a", (0 : Int)) ∈ ([("a", (0 : Int)), ("b", (200 : Int))] : NonceStore) ∧
          400 - ("a", (0 : Int)).2 ≤ NONCE_TTL)) :=
  ⟨by decide,
    sweep_deletes_exactly_expired 400 [("a", (0 : Int)), ("b", (200 : Int))] ("a", (0 : Int))
      (by decide)⟩

/-- C5: when the configured minimum-score threshold exceeds 999998 (the
effectively infinite sentinel), `check_reputation` permits every address and
returns the bypass-tagged placeholder record, regardless of the cache
contents, of the SDK being configured, and of the TEST_MODE setting. -/
theorem sentinel_threshold_bypasses_reputation (cfg : RepConfig) (cache : RepCache)
    (a : String) (h : cfg.minScore > 999998) :
    check_reputation cfg cache a =
      (true, some (AgentInfo.bypass "Reputation check disabled")) := by
  unfold check_reputation
  rw [if_pos h]

theorem sentinel_threshold_bypasses_reputation_witness :
    (RepConfig.mk 999999 false "").minScore > 999998 ∧
      check_reputation (RepConfig.mk 999999 false "") [] "0xAbC" =
        (true, some (AgentInfo.bypass "Reputation check disabled")) :=
  ⟨by decide, sentinel_threshold_bypasses_reputation (RepConfig.mk 999999 false "") [] "0xAbC"
    (by decide)⟩

/-- C6: when the SDK failed to initialize and the sentinel threshold is not
set, every lookup reports no reputation (denied, no record) unless the
TEST_MODE override is set (case-insensitively) to "true", in which case every
lookup reports the permissive placeholder record. -/
theorem sdk_unavailable_lookup (cfg : RepConfig) (cache : RepCache) (a : String)
    (h1 : cfg.minScore ≤ 999998) (h2 : cfg.sdkAvailable = false) :
    check_reputation cfg cache a =
      (if pyLower cfg.testModeEnv = "true" then
        (true, some (AgentInfo.bypass "Test mode enabled"))
      else (false, none)) := by
  unfold check_reputation
  rw [if_neg (by omega), if_pos h2]

theorem sdk_unavailable_lookup_witness :
    (RepConfig.mk 50 false "TRUE").minScore ≤ 999998 ∧
      (RepConfig.mk 50 false "TRUE").sdkAvailable = false ∧
      check_reputation (RepConfig.mk 50 false "TRUE") [("0xabc", RepRecord.mk "1" "A" 80 "T")]
          "0xabc" =
        (if pyLower (RepConfig.mk 50 false "TRUE").testModeEnv = "true" then
          (true, some (AgentInfo.bypass "Test mode enabled"))
        else (false, none)) :=
  ⟨by decide, rfl,
    sdk_unavailable_lookup (RepConfig.mk 50 false "TRUE")
      [("0xabc", RepRecord.mk "1" "A" 80 "T")] "0xabc" (by decide) rfl⟩

/-- C9: with the SDK configured and the sentinel not set, the reputation
check grants access based solely on the presence of the lowercased address in
the cache: the cached score is never compared against the threshold (the
result is the same for any two sub-sentinel thresholds, and a record whose
score is 0 is still granted); moreover the refresh loop stores a defaulted
score of 0 for an agent whose `extras` carries no averageScore. -/
theorem reputation_grant_ignores_score (m1 m2 : Int) (t1 t2 tNow : String) (cache : RepCache)
    (a w aid nm : String) (rec : RepRecord)
    (h1 : m1 ≤ 999998) (h2 : m2 ≤ 999998)
    (hlook : cacheLookup cache (pyLower a) = some rec) (hw : w ≠ "") :
    check_reputation (RepConfig.mk m1 true t1) cache a = (true, some (AgentInfo.cached rec)) ∧
      check_reputation (RepConfig.mk m2 true t2) cache a =
        (true, some (AgentInfo.cached rec)) ∧
      processAgent tNow (RawAgent.mk (some (Sum.inl w)) (some aid) (some nm) none) =
        Except.ok (some (pyLower w, RepRecord.mk aid nm 0 tNow)) := by
  refine ⟨?_, ?_, ?_⟩
  · simp only [check_reputation, hlook]
    rw [if_neg (by omega)]
    simp
  · simp only [check_reputation, hlook]
    rw [if_neg (by omega)]
    simp
  · simp only [processAgent]
    rw [if_neg hw]
    rfl

theorem reputation_grant_ignores_score_witness :
    (50 : Int) ≤ 999998 ∧ (999998 : Int) ≤ 999998 ∧
      cacheLookup [("0xabc", RepRecord.mk "N/A" "N/A" 0 "T")] (pyLower "0xABC") =
        some (RepRecord.mk "N/A" "N/A" 0 "T") ∧
      ("0xABC" : String) ≠ "" ∧
      (check_reputation (RepConfig.mk 50 true "") [("0xabc", RepRecord.mk "N/A" "N/A" 0 "T")]
          "0xABC" = (true, some (AgentInfo.cached (RepRecord.mk "N/A" "N/A" 0 "T"))) ∧
        check_reputation (RepConfig.mk 999998 true "")
            [("0xabc", RepRecord.mk "N/A" "N/A" 0 "T")] "0xABC" =
          (true, some (AgentInfo.cached (RepRecord.mk "N/A" "N/A" 0 "T"))) ∧
        processAgent "T1" (RawAgent.mk (some (Sum.inl "0xABC")) (some "7") (some "B") none) =
          Except.ok (some (pyLower "0xABC", RepRecord.mk "7" "B" 0 "T1"))) :=
  ⟨by decide, by decide, by decide, by decide,
    reputation_grant_ignores_score 50 999998 "" "" "T1"
      [("0xabc", RepRecord.mk "N/A" "N/A" 0 "T")] "0xABC" "0xABC" "7" "B"
      (RepRecord.mk "N/A" "N/A" 0 "T") (by decide) (by decide) (by decide) (by decide)⟩

/-- C10: when EXPECTED_DOMAIN is unset the handler returns the 500
server-misconfiguration error before any validation step, and the nonce store
is returned completely unchanged — in particular no nonce is consumed. -/
theorem misconfig_leaves_store_untouched (cfg : ServerConfig) (req : GoldRequest)
    (store : NonceStore) (cache : RepCache) (h : cfg.expectedDomain = none) :
    golden_emoji cfg req store cache = (GoldResponse.misconfig, store) ∧
      statusOf GoldResponse.misconfig = 500 ∧
      errorMessage GoldResponse.misconfig =
        some "Server misconfiguration: EXPECTED_DOMAIN not set" := by
  unfold golden_emoji
  rw [h]
  exact ⟨rfl, rfl, rfl⟩

theorem misconfig_leaves_store_untouched_witness :
    (ServerConfig.mk none 999 "I want the gold" none (RepConfig.mk 50 true "")).expectedDomain =
        none ∧
      (golden_emoji (ServerConfig.mk none 999 "I want the gold" none (RepConfig.mk 50 true ""))
          (GoldRequest.mk true (some "m") (some "s")
            (some (SiweMessage.mk "n1" "localhost" 999 "I want the gold" "http://localhost"
              "0xabc")) true)
          [("n1", (0 : Int))] [] = (GoldResponse.misconfig, [("n1", (0 : Int))]) ∧
        statusOf GoldResponse.misconfig = 500 ∧
        errorMessage GoldResponse.misconfig =
          some "Server misconfiguration: EXPECTED_DOMAIN not set") :=
  ⟨rfl,
    misconfig_leaves_store_untouched
      (ServerConfig.mk none 999 "I want the gold" none (RepConfig.mk 50 true ""))
      (GoldRequest.mk true (some "m") (some "s")
        (some (SiweMessage.mk "n1" "localhost" 999 "I want the gold" "http://localhost" "0xabc"))
        true)
      [("n1", (0 : Int))] [] rfl⟩

/-- C3 counterexample: the claim says any failure during a refresh cycle
leaves the previously visible cache snapshot unchanged. But the source clears
`reputation_cache` in place before repopulating it, so a per-record failure
(here a truthy non-string `walletAddress`, whose `.lower()` raises) aborts
the populate loop and leaves the cleared partial mapping: starting from a
one-entry snapshot, the cycle catches an exception (flag `true`) and the
visible cache afterwards is empty, not the prior snapshot. -/
theorem refresh_record_failure_loses_snapshot :
    fetch_reputation_agents true
        (Except.ok [RawAgent.mk (some (Sum.inr ())) none none none]) "T1"
        [("0xabc", RepRecord.mk "1" "AgentOne" 80 "T0")] = ([], true) := rfl

/-- C3 amended: only failures of the external fetch itself (which raise
before the cache update begins), or a disabled SDK, retain the previous cache
snapshot unchanged; a failure inside the per-record processing loop instead
leaves the cleared, partially repopulated mapping visible. This theorem
proves the retention half: the cache visible after a cycle whose fetch raised
is exactly the prior snapshot, and likewise for a skipped cycle. -/
theorem refresh_fetch_failure_retains_snapshot (sdk : Bool)
    (f : Except Unit (List RawAgent)) (now : String) (cache : RepCache) :
    (fetch_reputation_agents sdk (Except.error ()) now cache).1 = cache ∧
      (fetch_reputation_agents false f now cache).1 = cache := by
  constructor
  · unfold fetch_reputation_agents
    cases sdk <;> rfl
  · rfl

/-- C1: the first well-formed verification attempt presenting an issued
nonce finds it present and deletes it — the store left behind is exactly the
store with that key removed, whatever the later checks decided — and a
subsequent well-formed attempt presenting the same nonce fails with the
"Invalid or expired nonce" error, leaving the store unchanged. -/
theorem nonce_consumed_exactly_once (cfg : ServerConfig) (req req2 : GoldRequest)
    (store : NonceStore) (cache cache2 : RepCache) (d m g m2 g2 : String)
    (msg msg2 : SiweMessage)
    (hd : cfg.expectedDomain = some d) (hdne : d ≠ "")
    (hjson : req.hasJson = true) (hm : req.message = some m) (hmne : m ≠ "")
    (hg : req.signature = some g) (hgne : g ≠ "") (hp : req.parsed = some msg)
    (hjson2 : req2.hasJson = true) (hm2 : req2.message = some m2) (hmne2 : m2 ≠ "")
    (hg2 : req2.signature = some g2) (hgne2 : g2 ≠ "") (hp2 : req2.parsed = some msg2)
    (hsame : msg2.nonce = msg.nonce)
    (hpresent : hasNonce store msg.nonce = true) :
    (golden_emoji cfg req store cache).2 = deleteKeys [msg.nonce] store ∧
      hasNonce (golden_emoji cfg req store cache).2 msg.nonce = false ∧
      golden_emoji cfg req2 (golden_emoji cfg req store cache).2 cache2 =
        (GoldResponse.invalidNonce, (golden_emoji cfg req store cache).2) ∧
      errorMessage GoldResponse.invalidNonce = some "Invalid or expired nonce" := by
  have h1 := golden_emoji_eq_of_wf cfg req store cache d m g msg hd hdne hjson hm hmne hg hgne hp
  rw [if_neg (by rw [hpresent]; decide)] at h1
  have hstore : (golden_emoji cfg req store cache).2 = deleteKeys [msg.nonce] store := by
    rw [h1]
  have hgone : hasNonce (golden_emoji cfg req store cache).2 msg.nonce = false := by
    rw [hstore]
    exact hasNonce_deleteKeys_self msg.nonce store
  refine ⟨hstore, hgone, ?_, rfl⟩
  have h2 := golden_emoji_eq_of_wf cfg req2 ((golden_emoji cfg req store cache).2) cache2 d m2 g2
    msg2 hd hdne hjson2 hm2 hmne2 hg2 hgne2 hp2
  rw [h2, hsame, if_pos hgone]

theorem nonce_consumed_exactly_once_witness :
    (golden_emoji
        (ServerConfig.mk (some "localhost") 999 "I want the gold" none (RepConfig.mk 50 true ""))
        (GoldRequest.mk true (some "raw") (some "sg")
          (some (SiweMessage.mk "n1" "evil.com" 1 "x" "http://y" "0xabc")) true)
        [("n1", (0 : Int))] []).2 =
      deleteKeys [(SiweMessage.mk "n1" "evil.com" 1 "x" "http://y" "0xabc").nonce]
        [("n1", (0 : Int))] ∧
    hasNonce
      (golden_emoji
        (ServerConfig.mk (some "localhost") 999 "I want the gold" none (RepConfig.mk 50 true ""))
        (GoldRequest.mk true (some "raw") (some "sg")
          (some (SiweMessage.mk "n1" "evil.com" 1 "x" "http://y" "0xabc")) true)
        [("n1", (0 : Int))] []).2
      (SiweMessage.mk "n1" "evil.com" 1 "x" "http://y" "0xabc").nonce = false ∧
    golden_emoji
        (ServerConfig.mk (some "localhost") 999 "I want the gold" none (RepConfig.mk 50 true ""))
        (GoldRequest.mk true (some "raw") (some "sg")
          (some (SiweMessage.mk "n1" "evil.com" 1 "x" "http://y" "0xabc")) true)
        (golden_emoji
          (ServerConfig.mk (some "localhost") 999 "I want the gold" none (RepConfig.mk 50 true ""))
          (GoldRequest.mk true (some "raw") (some "sg")
            (some (SiweMessage.mk "n1" "evil.com" 1 "x" "http://y" "0xabc")) true)
          [("n1", (0 : Int))] []).2 [] =
      (GoldResponse.invalidNonce,
        (golden_emoji
          (ServerConfig.mk (some "localhost") 999 "I want the gold" none (RepConfig.mk 50 true ""))
          (GoldRequest.mk true (some "raw") (some "sg")
            (some (SiweMessage.mk "n1" "evil.com" 1 "x" "http://y" "0xabc")) true)
          [("n1", (0 : Int))] []).2) ∧
    errorMessage GoldResponse.invalidNonce = some "Invalid or expired nonce" :=
  nonce_consumed_exactly_once
    (ServerConfig.mk (some "localhost") 999 "I want the gold" none (RepConfig.mk 50 true ""))
    (GoldRequest.mk true (some "raw") (some "sg")
      (some (SiweMessage.mk "n1" "evil.com" 1 "x" "http://y" "0xabc")) true)
    (GoldRequest.mk true (some "raw") (some "sg")
      (some (SiweMessage.mk "n1" "evil.com" 1 "x" "http://y" "0xabc")) true)
    [("n1", (0 : Int))] [] [] "localhost" "raw" "sg" "raw" "sg"
    (SiweMessage.mk "n1" "evil.com" 1 "x" "http://y" "0xabc")
    (SiweMessage.mk "n1" "evil.com" 1 "x" "http://y" "0xabc")
    rfl (by decide) rfl rfl (by decide) rfl (by decide) rfl
    rfl rfl (by decide) rfl (by decide) rfl rfl (by decide)

/-- the post-nonce validation chain of the handler reports exactly the first
failing check of the claimed fixed order. -/
theorem fieldChecks_eq_first_failing (cfg : ServerConfig) (d uriExp : String)
    (msg : SiweMessage) (sigOk : Bool) (cache : RepCache) (store : NonceStore)
    (hpresent : hasNonce store msg.nonce = true) :
    fieldChecks cfg d uriExp msg sigOk cache =
      (match specCheckOrder.find? (specCheckFails cfg d uriExp msg sigOk cache store) with
       | some c => specCheckFailureResponse cfg d uriExp msg c
       | none =>
          GoldResponse.success msg.address (check_reputation cfg.rep cache msg.address).2) := by
  by_cases h2 : msg.domain = d
  case neg =>
    have hb : (msg.domain != d) = true := by simpa [bne_iff_ne] using h2
    simp [fieldChecks, specCheckOrder, specCheckFails, specCheckFailureResponse, List.find?,
      hpresent, hb, h2]
  case pos =>
    have hb2 : (msg.domain != d) = false := by simp [h2]
    by_cases h3 : msg.chain_id = cfg.chainId
    case neg =>
      have hb : (msg.chain_id != cfg.chainId) = true := by simpa [bne_iff_ne] using h3
      simp [fieldChecks, specCheckOrder, specCheckFails, specCheckFailureResponse, List.find?,
        hpresent, hb2, hb, h2, h3]
    case pos =>
      have hb3 : (msg.chain_id != cfg.chainId) = false := by simp [h3]
      by_cases h4 : msg.statement = cfg.expectedStatement
      case neg =>
        have hb : (msg.statement != cfg.expectedStatement) = true := by
          simpa [bne_iff_ne] using h4
        simp [fieldChecks, specCheckOrder, specCheckFails, specCheckFailureResponse, List.find?,
          hpresent, hb2, hb3, hb, h2, h3, h4]
      case pos =>
        have hb4 : (msg.statement != cfg.expectedStatement) = false := by simp [h4]
        by_cases h5 : msg.uri = uriExp
        case neg =>
          have hb : (msg.uri != uriExp) = true := by simpa [bne_iff_ne] using h5
          simp [fieldChecks, specCheckOrder, specCheckFails, specCheckFailureResponse,
            List.find?, hpresent, hb2, hb3, hb4, hb, h2, h3, h4, h5]
        case pos =>
          have hb5 : (msg.uri != uriExp) = false := by simp [h5]
          cases h6 : sigOk with
          | false =>
            simp [fieldChecks, specCheckOrder, specCheckFails, specCheckFailureResponse,
              List.find?, hpresent, hb2, hb3, hb4, hb5, h2, h3, h4, h5, h6]
          | true =>
            cases h7 : (check_reputation cfg.rep cache msg.address).1 with
            | false =>
              simp [fieldChecks, specCheckOrder, specCheckFails, specCheckFailureResponse,
                List.find?, hpresent, hb2, hb3, hb4, hb5, h2, h3, h4, h5, h6, h7]
            | true =>
              simp [fieldChecks, specCheckOrder, specCheckFails, specCheckFailureResponse,
                List.find?, hpresent, hb2, hb3, hb4, hb5, h2, h3, h4, h5, h6, h7]

/-- C2: for a well-formed POST request, the reported outcome is determined by
the first failing check of the fixed order nonce, domain, chain id,
statement, uri, signature, reputation (so a request with both an invalid
nonce and a mismatched domain reports the nonce error), and each
field-mismatch error message names the mismatched field with both the
expected and the actual value. -/
theorem verifier_first_failing_check (cfg : ServerConfig) (req : GoldRequest)
    (store : NonceStore) (cache : RepCache) (d m g : String) (msg : SiweMessage)
    (eS aS : String) (eI aI : Int)
    (hd : cfg.expectedDomain = some d) (hdne : d ≠ "")
    (hjson : req.hasJson = true) (hm : req.message = some m) (hmne : m ≠ "")
    (hg : req.signature = some g) (hgne : g ≠ "") (hp : req.parsed = some msg) :
    (golden_emoji cfg req store cache).1 =
      (match specCheckOrder.find? (specCheckFails cfg d
          (cfg.expectedUriEnv.getD ("http://" ++ d)) msg req.sigOk cache store) with
       | some c =>
          specCheckFailureResponse cfg d (cfg.expectedUriEnv.getD ("http://" ++ d)) msg c
       | none =>
          GoldResponse.success msg.address (check_reputation cfg.rep cache msg.address).2) ∧
      errorMessage (GoldResponse.domainMismatch eS aS) =
        some ("Domain mismatch: expected " ++ sq ++ eS ++ sq ++ ", got " ++ sq ++ aS ++ sq) ∧
      errorMessage (GoldResponse.chainIdMismatch eI aI) =
        some ("Chain ID mismatch: expected " ++ toString eI ++ ", got " ++ toString aI) ∧
      errorMessage (GoldResponse.statementMismatch eS aS) =
        some ("Statement mismatch: expected " ++ sq ++ eS ++ sq ++ ", got " ++ sq ++ aS ++ sq) ∧
      errorMessage (GoldResponse.uriMismatch eS aS) =
        some ("URI mismatch: expected " ++ sq ++ eS ++ sq ++ ", got " ++ sq ++ aS ++ sq) := by
  refine ⟨?_, rfl, rfl, rfl, rfl⟩
  rw [golden_emoji_eq_of_wf cfg req store cache d m g msg hd hdne hjson hm hmne hg hgne hp]
  by_cases hn : hasNonce store msg.nonce = false
  · rw [if_pos hn]
    simp [specCheckOrder, specCheckFails, specCheckFailureResponse, List.find?, hn]
  · rw [if_neg hn]
    have hpres : hasNonce store msg.nonce = true := by
      cases hx : hasNonce store msg.nonce
      · exact absurd hx hn
      · rfl
    exact fieldChecks_eq_first_failing cfg d _ msg req.sigOk cache store hpres

theorem verifier_first_failing_check_witness :
    (golden_emoji
        (ServerConfig.mk (some "localhost") 999 "I want the gold" none (RepConfig.mk 50 true ""))
        (GoldRequest.mk true (some "raw") (some "sg")
          (some (SiweMessage.mk "nX" "evil.com" 1 "x" "http://y" "0xabc")) true)
        [("other", (0 : Int))] []).1 =
      (match specCheckOrder.find? (specCheckFails
          (ServerConfig.mk (some "localhost") 999 "I want the gold" none (RepConfig.mk 50 true ""))
          "localhost"
          ((ServerConfig.mk (some "localhost") 999 "I want the gold" none
            (RepConfig.mk 50 true "")).expectedUriEnv.getD ("http://" ++ "localhost"))
          (SiweMessage.mk "nX" "evil.com" 1 "x" "http://y" "0xabc") true [] [("other", (0 : Int))])
          with
       | some c =>
          specCheckFailureResponse
            (ServerConfig.mk (some "localhost") 999 "I want the gold" none
              (RepConfig.mk 50 true ""))
            "localhost"
            ((ServerConfig.mk (some "localhost") 999 "I want the gold" none
              (RepConfig.mk 50 true "")).expectedUriEnv.getD ("http://" ++ "localhost"))
            (SiweMessage.mk "nX" "evil.com" 1 "x" "http://y" "0xabc") c
       | none =>
          GoldResponse.success (SiweMessage.mk "nX" "evil.com" 1 "x" "http://y" "0xabc").address
            (check_reputation (RepConfig.mk 50 true "") []
              (SiweMessage.mk "nX" "evil.com" 1 "x" "http://y" "0xabc").address).2) ∧
      errorMessage (GoldResponse.domainMismatch "localhost" "evil.com") =
        some ("Domain mismatch: expected " ++ sq ++ "localhost" ++ sq ++ ", got " ++ sq ++
          "evil.com" ++ sq) ∧
      errorMessage (GoldResponse.chainIdMismatch 999 1) =
        some ("Chain ID mismatch: expected " ++ toString (999 : Int) ++ ", got " ++
          toString (1 : Int)) ∧
      errorMessage (GoldResponse.statementMismatch "localhost" "evil.com") =
        some ("Statement mismatch: expected " ++ sq ++ "localhost" ++ sq ++ ", got " ++ sq ++
          "evil.com" ++ sq) ∧
      errorMessage (GoldResponse.uriMismatch "localhost" "evil.com") =
        some ("URI mismatch: expected " ++ sq ++ "localhost" ++ sq ++ ", got " ++ sq ++
          "evil.com" ++ sq) :=
  verifier_first_failing_check
    (ServerConfig.mk (some "localhost") 999 "I want the gold" none (RepConfig.mk 50 true ""))
    (GoldRequest.mk true (some "raw") (some "sg")
      (some (SiweMessage.mk "nX" "evil.com" 1 "x" "http://y" "0xabc")) true)
    [("other", (0 : Int))] [] "localhost" "raw" "sg"
    (SiweMessage.mk "nX" "evil.com" 1 "x" "http://y" "0xabc")
    "localhost" "evil.com" 999 1
    rfl (by decide) rfl rfl (by decide) rfl (by decide) rfl

/-- C8: a well-formed POST body whose message fails to parse into a SIWE
challenge is an immediate terminal failure with the generic "Verification
failed" message at status 401 (the bucket of nonce/field/signature
mismatches), while a missing JSON payload or missing/empty message or
signature fields are reported with status 400. -/
theorem malformed_input_handling (cfg : ServerConfig) (req : GoldRequest)
    (store : NonceStore) (cache : RepCache) (d m g eS aS : String) (eI aI : Int)
    (mo so : Option String) (po : Option SiweMessage) (ko : Bool)
    (hd : cfg.expectedDomain = some d) (hdne : d ≠ "")
    (hjson : req.hasJson = true) (hm : req.message = some m) (hmne : m ≠ "")
    (hg : req.signature = some g) (hgne : g ≠ "") (hp : req.parsed = none) :
    golden_emoji cfg req store cache = (GoldResponse.verificationFailed, store) ∧
      errorMessage GoldResponse.verificationFailed = some "Verification failed" ∧
      statusOf GoldResponse.verificationFailed = 401 ∧
      golden_emoji cfg (GoldRequest.mk false mo so po ko) store cache =
        (GoldResponse.invalidJson, store) ∧
      golden_emoji cfg (GoldRequest.mk true none so po ko) store cache =
        (GoldResponse.missingFields, store) ∧
      golden_emoji cfg (GoldRequest.mk true mo none po ko) store cache =
        (GoldResponse.missingFields, store) ∧
      golden_emoji cfg (GoldRequest.mk true (some "") so po ko) store cache =
        (GoldResponse.missingFields, store) ∧
      golden_emoji cfg (GoldRequest.mk true mo (some "") po ko) store cache =
        (GoldResponse.missingFields, store) ∧
      statusOf GoldResponse.invalidJson = 400 ∧
      statusOf GoldResponse.missingFields = 400 ∧
      statusOf GoldResponse.invalidNonce = 401 ∧
      statusOf (GoldResponse.domainMismatch eS aS) = 401 ∧
      statusOf (GoldResponse.chainIdMismatch eI aI) = 401 ∧
      statusOf (GoldResponse.statementMismatch eS aS) = 401 ∧
      statusOf (GoldResponse.uriMismatch eS aS) = 401 := by
  refine ⟨?_, rfl, rfl, ?_, ?_, ?_, ?_, ?_, rfl, rfl, rfl, rfl, rfl, rfl, rfl⟩
  · unfold golden_emoji
    rw [hd]
    dsimp only
    rw [if_neg hdne, hjson, hm, hg, hp]
    simp [hmne, hgne]
  · unfold golden_emoji
    rw [hd]
    dsimp only
    rw [if_neg hdne]
    simp
  · unfold golden_emoji
    rw [hd]
    dsimp only
    rw [if_neg hdne]
    cases so <;> simp
  · unfold golden_emoji
    rw [hd]
    dsimp only
    rw [if_neg hdne]
    cases mo <;> simp
  · unfold golden_emoji
    rw [hd]
    dsimp only
    rw [if_neg hdne]
    cases so <;> simp
  · unfold golden_emoji
    rw [hd]
    dsimp only
    rw [if_neg hdne]
    cases mo <;> simp

theorem malformed_input_handling_witness :
    golden_emoji
        (ServerConfig.mk (some "localhost") 999 "I want the gold" none (RepConfig.mk 50 true ""))
        (GoldRequest.mk true (some "not-a-siwe-message") (some "sg") none true)
        [("n1", (0 : Int))] [] =
      (GoldResponse.verificationFailed, [("n1", (0 : Int))]) ∧
      errorMessage GoldResponse.verificationFailed = some "Verification failed" ∧
      statusOf GoldResponse.verificationFailed = 401 ∧
      golden_emoji
          (ServerConfig.mk (some "localhost") 999 "I want the gold" none (RepConfig.mk 50 true ""))
          (GoldRequest.mk false (some "x") (some "y") none true) [("n1", (0 : Int))] [] =
        (GoldResponse.invalidJson, [("n1", (0 : Int))]) ∧
      golden_emoji
          (ServerConfig.mk (some "localhost") 999 "I want the gold" none (RepConfig.mk 50 true ""))
          (GoldRequest.mk true none (some "y") none true) [("n1", (0 : Int))] [] =
        (GoldResponse.missingFields, [("n1", (0 : Int))]) ∧
      golden_emoji
          (ServerConfig.mk (some "localhost") 999 "I want the gold" none (RepConfig.mk 50 true ""))
          (GoldRequest.mk true (some "x") none none true) [("n1", (0 : Int))] [] =
        (GoldResponse.missingFields, [("n1", (0 : Int))]) ∧
      golden_emoji
          (ServerConfig.mk (some "localhost") 999 "I want the gold" none (RepConfig.mk 50 true ""))
          (GoldRequest.mk true (some "") (some "y") none true) [("n1", (0 : Int))] [] =
        (GoldResponse.missingFields, [("n1", (0 : Int))]) ∧
      golden_emoji
          (ServerConfig.mk (some "localhost") 999 "I want the gold" none (RepConfig.mk 50 true ""))
          (GoldRequest.mk true (some "x") (some "") none true) [("n1", (0 : Int))] [] =
        (GoldResponse.missingFields, [("n1", (0 : Int))]) ∧
      statusOf GoldResponse.invalidJson = 400 ∧
      statusOf GoldResponse.missingFields = 400 ∧
      statusOf GoldResponse.invalidNonce = 401 ∧
      statusOf (GoldResponse.domainMismatch "a" "b") = 401 ∧
      statusOf (GoldResponse.chainIdMismatch 1 2) = 401 ∧
      statusOf (GoldResponse.statementMismatch "a" "b") = 401 ∧
      statusOf (GoldResponse.uriMismatch "a" "b") = 401 :=
  malformed_input_handling
    (ServerConfig.mk (some "localhost") 999 "I want the gold" none (RepConfig.mk 50 true ""))
    (GoldRequest.mk true (some "not-a-siwe-message") (some "sg") none true)
    [("n1", (0 : Int))] [] "localhost" "not-a-siwe-message" "sg" "a" "b" 1 2
    (some "x") (some "y") none true
    rfl (by decide) rfl rfl (by decide) rfl (by decide) rfl

end SiweServer
